import Mathlib

/-!
Shallow embedding of `src/index.js` of webpack-hot-server-middleware.

The module exports a single constructor `webpackHotServerMiddleware` that
- validates that the multi-compiler has compilation units named `server` and
  `client`,
- subscribes a `done` handler that, on every completed build cycle, either
  records the first server compilation error, or resolves the server entry
  chunk filename, reads it from the output filesystem, evaluates it and calls
  the exported factory with `clientStats.toJson()` to obtain the current
  renderer,
- returns a request handler that forwards to `next(error)` when a (truthy)
  error is recorded and otherwise invokes the current renderer.

JavaScript values that can be thrown, stored in the `error` variable or tested
for truthiness are modelled by `JsValue`.  Dynamic evaluation
(`require-from-string`), the output filesystem and the factory exported by the
compiled bundle are inputs of the build event, modelled as Lean functions
returning `Except JsValue _` (an exception is `.error`).  The renderer type `R`
and the type `J` of `toJson()` results are parameters.
-/

/-- A JavaScript runtime value, as far as this middleware inspects one:
primitives with their truthiness, and object instances (`object cls msg`
models an object of class `cls`; for `Error`-like objects `msg` is the
message, otherwise `""`). -/
inductive JsValue where
  | undef
  | null
  | bool (b : Bool)
  | num (n : Int)
  | str (s : String)
  | object (className : String) (message : String)
deriving DecidableEq, Repr

/-- JavaScript truthiness: `undefined`, `null`, `false`, `0` and `""` are
falsy; every object (arrays included) is truthy. -/
def JsValue.truthy : JsValue → Bool
  | .undef => false
  | .null => false
  | .bool b => b
  | .num n => n != 0
  | .str s => s != ""
  | .object _ _ => true

/-- The JavaScript `!` operator: produces a primitive boolean. -/
def jsNot (v : JsValue) : JsValue := .bool (!v.truthy)

/-- The JavaScript `instanceof` operator on our value model: only object
instances of the named class qualify; primitives are never instances. -/
def jsInstanceOf (v : JsValue) (className : String) : Bool :=
  match v with
  | .object c _ => c == className
  | _ => false

/-- The value of `assetsByChunkName[chunkName]` in a webpack stats object:
either a single emitted filename or a list of them (e.g. bundle plus source
map). -/
inductive Asset where
  | single (filename : String)
  | multiple (filenames : List String)
deriving DecidableEq, Repr

/-- Truthiness of a manifest entry when coerced by `filename || ''`:
the empty string is falsy, every array (even an empty one) is truthy. -/
def Asset.jsTruthy : Asset → Bool
  | .single s => s != ""
  | .multiple _ => true

/-- `path.join(dir, filename)` restricted to the shapes this middleware
produces (no `..` or absolute second segments); `path.join(dir, '')`
normalizes to `dir`. -/
def pathJoin (dir filename : String) : String :=
  if filename = "" then dir else dir ++ "/" ++ filename

/-- The regex test `/\.js$/.test(asset)` on a filename: the name ends with
`.js` (computed on the character list so that it evaluates by reduction). -/
def testJsExt (s : String) : Bool := List.isSuffixOf ".js".data s.data

/-- The `TypeError` thrown by `path.join` when its second argument is
`undefined` (no array element matched `/\.js$/`). -/
def pathJoinTypeError : JsValue :=
  .object "TypeError" "Path must be a string. Received undefined"

/-- The `TypeError` thrown by reading `.compilation` on an `undefined`
result of `findStats`. -/
def statsUndefinedTypeError : JsValue :=
  .object "TypeError" "Cannot read properties of undefined (reading compilation)"

/-- The `TypeError` thrown by calling `.toJson()` on an `undefined`
`clientStats`. -/
def clientUndefinedTypeError : JsValue :=
  .object "TypeError" "Cannot read properties of undefined (reading toJson)"

/--
```
function getChunkFilename(stats, outputPath, chunkName) {
    const assetsByChunkName = stats.toJson().assetsByChunkName;
    let filename = assetsByChunkName[chunkName] || '';
    return path.join(
        outputPath,
        Array.isArray(filename) ?
            filename.find(asset => /\.js$/.test(asset)) : filename
    );
}
```
`assetsByChunkName` is modelled as an association list.  A missing or falsy
entry becomes `''`.  When the entry is an array with no `.js` member,
`filename.find(...)` is `undefined` and `path.join` throws. -/
def getChunkFilename (assetsByChunkName : List (String × Asset))
    (outputPath chunkName : String) : Except JsValue String :=
  let filename : Asset :=
    match (assetsByChunkName.find? (fun p => p.1 == chunkName)).map Prod.snd with
    | some a => if a.jsTruthy then a else .single ""
    | none => .single ""
  match filename with
  | .single s => .ok (pathJoin outputPath s)
  | .multiple l =>
    match l.find? testJsExt with
    | some asset => .ok (pathJoin outputPath asset)
    | none => .error pathJoinTypeError

/-- One entry of a Multi-Build Result, as the `done` handler consumes it:
`name` is `stats.compilation.name`, `errors` is `stats.compilation.errors`,
`assetsByChunkName` is the manifest inside `stats.toJson()`, and `toJson` is
the full `stats.toJson()` result (of parameter type `J`), the value passed to
the server factory for the client unit. -/
structure Stats (J : Type) where
  name : String
  errors : List JsValue
  assetsByChunkName : List (String × Asset)
  toJson : J

/-- `multiStats.stats.find(stats => stats.compilation.name === name)`. -/
def findStats {J : Type} (multiStats : List (Stats J)) (name : String) :
    Option (Stats J) :=
  multiStats.find? (fun s => s.name == name)

/-- The module object produced by `requireFromString`: `esModule` is its
`__esModule` flag, `defaultExport` its `default` property and `selfExport`
the object itself used as the factory.  A factory may throw (`.error`) or
return a renderer of type `R`. -/
structure JsModule (J R : Type) where
  esModule : Bool
  defaultExport : J → Except JsValue R
  selfExport : J → Except JsValue R

/--
```
function interopRequireDefault(obj) {
    return obj && obj.__esModule ? obj.default : obj;
}
```
Module objects are always truthy, so the `obj &&` guard reduces to the
`__esModule` test. -/
def interopRequireDefault {J R : Type} (m : JsModule J R) :
    J → Except JsValue R :=
  if m.esModule then m.defaultExport else m.selfExport

/-- The environment the `done` handler closes over: the server compiler's
`outputPath`, the configured `chunkName`, the output filesystem's
`readFileSync` (already composed with `.toString()`) and the dynamic module
evaluator `require-from-string`. -/
structure Env (J R : Type) where
  outputPath : String
  chunkName : String
  readFileSync : String → Except JsValue String
  requireFromString : String → String → Except JsValue (JsModule J R)

/-- The dispatcher state closed over by both handlers: `serverRenderer`
(initially `undefined`, modelled `none`) and `error` (initially the literal
`false`). -/
structure DispatcherState (R : Type) where
  serverRenderer : Option R
  error : JsValue
deriving DecidableEq, Repr

/-- `let serverRenderer; let error = false;` at construction time. -/
def initialState {R : Type} : DispatcherState R :=
  { serverRenderer := none, error := .bool false }

/-- The body of the `try` block:
```
const data = outputFs.readFileSync(filename);
serverRenderer = interopRequireDefault(
    requireFromString(data.toString(), filename)
)(clientStats.toJson());
```
`clientStats.toJson()` is evaluated after `requireFromString` returns; when
`findStats` found no client unit the property access throws here, inside the
`try`. -/
def loadServerRenderer {J R : Type} (env : Env J R)
    (clientStats? : Option (Stats J)) (filename : String) :
    Except JsValue R :=
  match env.readFileSync filename with
  | .error e => .error e
  | .ok data =>
    match env.requireFromString data filename with
    | .error e => .error e
    | .ok m =>
      match clientStats? with
      | none => Except.error clientUndefinedTypeError
      | some clientStats => interopRequireDefault m clientStats.toJson

/-- The `multiCompiler.plugin('done', multiStats => ...)` handler.  Returns
the dispatcher state after the cycle and, in the second component, the
exception that escaped the handler uncaught, if any (`getChunkFilename` runs
outside the `try` block, so its `TypeError` escapes; so does the property
access on an `undefined` `serverStats`). -/
def doneHandler {J R : Type} (env : Env J R) (multiStats : List (Stats J))
    (st : DispatcherState R) : DispatcherState R × Option JsValue :=
  let clientStats? := findStats multiStats "client"
  match findStats multiStats "server" with
  | none => (st, some statsUndefinedTypeError)
  | some serverStats =>
    match serverStats.errors with
    | e :: _ => ({ st with error := e }, none)
    | [] =>
      let st1 : DispatcherState R := { st with error := .bool false }
      match getChunkFilename serverStats.assetsByChunkName env.outputPath
          env.chunkName with
      | .error e => (st1, some e)
      | .ok filename =>
        match loadServerRenderer env clientStats? filename with
        | .ok r => ({ st1 with serverRenderer := some r }, none)
        | .error e => ({ st1 with error := e }, none)

/-- What a single request observes. -/
inductive RequestOutcome (R : Type) where
  | nextError (e : JsValue)
  | render (r : R)
  | crash
deriving DecidableEq, Repr

/-- The returned middleware:
```
(req, res, next) => {
    if (error) {
        return next(error);
    }
    serverRenderer(req, res, next);
}
```
`error` is tested for truthiness; calling an `undefined` `serverRenderer`
throws (`crash`). -/
def requestHandler {R : Type} (st : DispatcherState R) : RequestOutcome R :=
  if st.error.truthy then .nextError st.error
  else
    match st.serverRenderer with
    | some r => .render r
    | none => .crash

/-- A compilation unit as seen at construction time: its `name` and, for the
server unit, the `outputPath` the handler will use. -/
structure Compiler where
  name : String
  outputPath : String
deriving DecidableEq, Repr

/-- What construction returns besides the middleware closure: the data the
handlers close over. -/
structure MiddlewareSetup where
  outputPath : String
  chunkName : String
deriving DecidableEq, Repr

def bothConfigErrorMsg : String :=
  "Expected webpack compiler to contain both a `client` and `server` config"

def missingServerErrorMsg : String :=
  "Expected a webpack compiler named `server`"

def missingClientErrorMsg : String :=
  "Expected a webpack compiler named `client`"

/-- `multiCompiler.compilers.find(compiler => compiler.name === name)`. -/
def findCompiler (compilers : List Compiler) (name : String) :
    Option Compiler :=
  compilers.find? (fun c => c.name == name)

/-- The construction-time prefix of `webpackHotServerMiddleware`:
```
options = Object.assign({}, DEFAULTS, options);
if (!multiCompiler instanceof MultiCompiler) { throw ...both... }
const serverCompiler = findCompiler(multiCompiler, 'server');
const clientCompiler = findCompiler(multiCompiler, 'client');
if (!serverCompiler) { throw ...server... }
if (!clientCompiler) { throw ...client... }
```
`multiCompilerVal` is the `multiCompiler` argument as a JavaScript value (its
`compilers` list is passed alongside); `options` supplies `chunkName` when
present, defaulting to `'main'`.  Note the guard is `(!multiCompiler)
instanceof MultiCompiler` by operator precedence. -/
def webpackHotServerMiddleware (multiCompilerVal : JsValue)
    (compilers : List Compiler) (optionsChunkName : Option String) :
    Except String MiddlewareSetup :=
  let chunkName := optionsChunkName.getD "main"
  if jsInstanceOf (jsNot multiCompilerVal) "MultiCompiler" then
    .error bothConfigErrorMsg
  else
    match findCompiler compilers "server", findCompiler compilers "client" with
    | none, _ => .error missingServerErrorMsg
    | some _, none => .error missingClientErrorMsg
    | some serverCompiler, some _ =>
      .ok { outputPath := serverCompiler.outputPath, chunkName := chunkName }

/-- A JSON-like value, the shape of a (mocked) `stats.toJson()` result
passed to the server factory. -/
inductive Json where
  | str (s : String)
  | arr (elems : List Json)
  | obj (fields : List (String × Json))

mutual

/-- Serialization as by `JSON.stringify` (plain strings, no escaping needed
for the filenames involved). -/
def Json.stringify : Json → String
  | .str s => "\"" ++ s ++ "\""
  | .arr l => "[" ++ Json.stringifyElems l ++ "]"
  | .obj fs => "\x7b" ++ Json.stringifyFields fs ++ "\x7d"

/-- Comma-separated serialization of array elements. -/
def Json.stringifyElems : List Json → String
  | [] => ""
  | [j] => Json.stringify j
  | j :: rest => Json.stringify j ++ "," ++ Json.stringifyElems rest

/-- Comma-separated serialization of object fields. -/
def Json.stringifyFields : List (String × Json) → String
  | [] => ""
  | [(k, v)] => "\"" ++ k ++ "\":" ++ Json.stringify v
  | (k, v) :: rest =>
    "\"" ++ k ++ "\":" ++ Json.stringify v ++ "," ++ Json.stringifyFields rest

end

/-! ### Concrete fixtures (the end-to-end scenario of the spec, and variants) -/

/-- The error thrown by `readFileSync` on a missing file. -/
def enoentError : JsValue := .object "Error" "ENOENT: no such file or directory"

/-- The module evaluated from the demo server bundle: a CommonJS export whose
factory echoes its argument as JSON (the renderer is modelled by the body it
writes). -/
def demoModule : JsModule Json String :=
  { esModule := false,
    defaultExport := fun _ => Except.error (JsValue.object "Error" "no default export"),
    selfExport := fun clientJson => Except.ok (Json.stringify clientJson) }

/-- Demo environment: output path `/dist`, chunk `main`, a filesystem holding
only `/dist/server.js`, evaluation producing `demoModule`. -/
def demoEnv : Env Json String :=
  { outputPath := "/dist",
    chunkName := "main",
    readFileSync := fun f =>
      if f == "/dist/server.js" then Except.ok "module.exports = factory"
      else Except.error enoentError,
    requireFromString := fun _ _ => Except.ok demoModule }

/-- Client unit: manifest `main -> main.js`, whose serialized form is passed
to the factory. -/
def demoClientStats : Stats Json :=
  { name := "client", errors := [],
    assetsByChunkName := [("main", Asset.single "main.js")],
    toJson := Json.obj [("main", Json.str "main.js")] }

/-- Server unit: no errors, manifest `main -> [server.js, server.js.map]`. -/
def demoServerStats : Stats Json :=
  { name := "server", errors := [],
    assetsByChunkName := [("main", Asset.multiple ["server.js", "server.js.map"])],
    toJson := Json.obj [] }

/-- Server unit whose compilation failed with the (truthy) error `"boom"`. -/
def erroredServerStats : Stats Json :=
  { demoServerStats with errors := [JsValue.str "boom"] }

/-- Server unit whose first compilation error is the falsy value `""`. -/
def falsyErrorServerStats : Stats Json :=
  { demoServerStats with errors := [JsValue.str ""] }

/-- Server unit whose first compilation error is the literal `false`. -/
def literalFalseErrorServerStats : Stats Json :=
  { demoServerStats with errors := [JsValue.bool false] }

/-- Server unit with no errors but whose `main` manifest entry contains no
`.js` file, so `getChunkFilename` throws. -/
def badManifestServerStats : Stats Json :=
  { demoServerStats with assetsByChunkName := [("main", Asset.multiple ["server.js.map"])] }

/-- A server bundle whose (ES-module) factory returns the renderer `n`,
for distinguishing the renderers of consecutive cycles. -/
def constModule (n : Nat) : JsModule Json Nat :=
  { esModule := true,
    defaultExport := fun _ => Except.ok n,
    selfExport := fun _ => Except.error (JsValue.object "Error" "module object is not a function") }

/-- Environment whose evaluation step yields `constModule n` (the output
filesystem snapshot of the n-th build cycle). -/
def constEnv (n : Nat) : Env Json Nat :=
  { outputPath := "/dist", chunkName := "main",
    readFileSync := fun _ => Except.ok "compiled bundle",
    requireFromString := fun _ _ => Except.ok (constModule n) }

/-- State after a first, successful demo cycle: the demo renderer is
installed and the error is cleared. -/
def demoState1 : DispatcherState String :=
  (doneHandler demoEnv [demoClientStats, demoServerStats] initialState).1

/-- State after a second cycle whose server build failed with boom. -/
def demoState2 : DispatcherState String :=
  (doneHandler demoEnv [demoClientStats, erroredServerStats] demoState1).1

/-- Outcome of a third cycle with no compile errors but a manifest entry
containing no .js file, run from `demoState2`. -/
def demoOutcome3 : DispatcherState String × Option JsValue :=
  doneHandler demoEnv [demoClientStats, badManifestServerStats] demoState2

/-- Outcome of a cycle whose first compile error is the literal `false`,
run from `demoState1`. -/
def demoLiteralFalseOutcome : DispatcherState String × Option JsValue :=
  doneHandler demoEnv [demoClientStats, literalFalseErrorServerStats] demoState1

/-! ### Theorems -/

/-- Negating any JavaScript value yields a primitive boolean, which is an
instance of no class; shared helper for the construction theorems. -/
lemma jsInstanceOf_jsNot (v : JsValue) (c : String) :
    jsInstanceOf (jsNot v) c = false := rfl

/-- C6: entry-file resolution: a manifest entry that is a single filename
string is used directly; one that is a list selects the first entry whose
name ends in the code-file extension; either way the result is joined with
the configured output directory. -/
theorem getChunkFilename_resolution (assets : List (String × Asset))
    (outputPath chunkName : String) :
    (∀ s, (assets.find? (fun p => p.1 == chunkName)).map Prod.snd
        = some (Asset.single s) →
      getChunkFilename assets outputPath chunkName
        = Except.ok (pathJoin outputPath s))
    ∧ (∀ l a, (assets.find? (fun p => p.1 == chunkName)).map Prod.snd
        = some (Asset.multiple l) →
      l.find? testJsExt = some a →
      getChunkFilename assets outputPath chunkName
        = Except.ok (pathJoin outputPath a)) := by
  constructor
  · intro s h
    unfold getChunkFilename
    rw [h]
    by_cases hs : s = ""
    · subst hs
      simp [Asset.jsTruthy, pathJoin]
    · simp [Asset.jsTruthy, hs]
  · intro l a h hf
    unfold getChunkFilename
    rw [h]
    simp [Asset.jsTruthy, hf]

/-- Witness for C6 at concrete manifests: a single filename is joined
directly; from a bundle-plus-source-map list the first name ending in .js is
selected. -/
theorem getChunkFilename_resolution_witness :
    getChunkFilename [("main", Asset.single "index.js")] "/out" "main"
      = Except.ok "/out/index.js"
    ∧ getChunkFilename [("main", Asset.multiple ["s.js.map", "s.js"])] "/out" "main"
      = Except.ok "/out/s.js" := by
  constructor
  · simpa [pathJoin] using
      (getChunkFilename_resolution [("main", Asset.single "index.js")] "/out" "main").1
        "index.js" (by decide)
  · simpa [pathJoin] using
      (getChunkFilename_resolution [("main", Asset.multiple ["s.js.map", "s.js"])] "/out" "main").2
        ["s.js.map", "s.js"] "s.js" (by decide) (by decide)

/-- C7: construction throws if no compilation unit is named server, likewise
if none is named client (whatever else is present), and otherwise succeeds
with the middleware setup. -/
theorem webpackHotServerMiddleware_construction (v : JsValue)
    (compilers : List Compiler) (opts : Option String) :
    (findCompiler compilers "server" = none →
      webpackHotServerMiddleware v compilers opts
        = Except.error missingServerErrorMsg)
    ∧ (findCompiler compilers "server" ≠ none →
       findCompiler compilers "client" = none →
      webpackHotServerMiddleware v compilers opts
        = Except.error missingClientErrorMsg)
    ∧ (findCompiler compilers "server" ≠ none →
       findCompiler compilers "client" ≠ none →
      ∃ mw, webpackHotServerMiddleware v compilers opts = Except.ok mw) := by
  unfold webpackHotServerMiddleware
  rw [jsInstanceOf_jsNot]
  refine ⟨fun hs => ?_, fun hs hc => ?_, fun hs hc => ?_⟩
  · simp only [if_neg Bool.false_ne_true, hs]
  · obtain ⟨sc, hsc⟩ := Option.ne_none_iff_exists'.mp hs
    simp only [if_neg Bool.false_ne_true, hsc, hc]
  · obtain ⟨sc, hsc⟩ := Option.ne_none_iff_exists'.mp hs
    obtain ⟨cc, hcc⟩ := Option.ne_none_iff_exists'.mp hc
    simp only [if_neg Bool.false_ne_true, hsc, hcc]
    exact ⟨_, rfl⟩

/-- Witness for C7 at concrete compiler lists: missing server fails, missing
client fails, both present succeeds. -/
theorem webpackHotServerMiddleware_construction_witness :
    webpackHotServerMiddleware JsValue.null [Compiler.mk "client" "/c"] none
      = Except.error missingServerErrorMsg
    ∧ webpackHotServerMiddleware JsValue.null [Compiler.mk "server" "/s"] none
      = Except.error missingClientErrorMsg
    ∧ ∃ mw, webpackHotServerMiddleware JsValue.null
        [Compiler.mk "client" "/c", Compiler.mk "server" "/s"] none
      = Except.ok mw := by
  refine ⟨?_, ?_, ?_⟩
  · exact (webpackHotServerMiddleware_construction JsValue.null
      [Compiler.mk "client" "/c"] none).1 (by decide)
  · exact (webpackHotServerMiddleware_construction JsValue.null
      [Compiler.mk "server" "/s"] none).2.1 (by decide) (by decide)
  · exact (webpackHotServerMiddleware_construction JsValue.null
      [Compiler.mk "client" "/c", Compiler.mk "server" "/s"] none).2.2
      (by decide) (by decide)

/-- C9: by operator precedence the guard tests the primitive boolean negation
of the argument, so it never fires: for every value of the multi-compiler
argument the instanceof test is false, the both-configs error is never
raised, and construction either succeeds or fails with one of the two
missing-unit errors. -/
theorem instanceOf_guard_unreachable (v : JsValue) (compilers : List Compiler)
    (opts : Option String) :
    jsInstanceOf (jsNot v) "MultiCompiler" = false
    ∧ webpackHotServerMiddleware v compilers opts ≠ Except.error bothConfigErrorMsg
    ∧ (webpackHotServerMiddleware v compilers opts = Except.error missingServerErrorMsg
       ∨ webpackHotServerMiddleware v compilers opts = Except.error missingClientErrorMsg
       ∨ ∃ mw, webpackHotServerMiddleware v compilers opts = Except.ok mw) := by
  refine ⟨jsInstanceOf_jsNot v _, ?_, ?_⟩
  · unfold webpackHotServerMiddleware
    rw [jsInstanceOf_jsNot]
    simp only [if_neg Bool.false_ne_true]
    match findCompiler compilers "server", findCompiler compilers "client" with
    | none, _ => simp [missingServerErrorMsg, bothConfigErrorMsg]
    | some _, none => simp [missingClientErrorMsg, bothConfigErrorMsg]
    | some _, some _ => simp
  · unfold webpackHotServerMiddleware
    rw [jsInstanceOf_jsNot]
    simp only [if_neg Bool.false_ne_true]
    match findCompiler compilers "server", findCompiler compilers "client" with
    | none, _ => exact Or.inl rfl
    | some _, none => exact Or.inr (Or.inl rfl)
    | some _, some _ => exact Or.inr (Or.inr ⟨_, rfl⟩)

/-- C1 counterexample: a cycle with no compile errors whose manifest entry
for the chunk contains no .js file: the TypeError thrown by filename
resolution (step 4) escapes the handler uncaught, and the state keeps
error at the cleared value false instead of the thrown value. -/
theorem getChunkFilename_throw_escapes_counterexample :
    (doneHandler demoEnv [demoClientStats, badManifestServerStats] initialState).2
      = some pathJoinTypeError
    ∧ (doneHandler demoEnv [demoClientStats, badManifestServerStats] initialState).1
      = initialState := by decide

/-- C1 amended: when the server build has no compile errors and filename
resolution succeeds, any value thrown while reading, evaluating or invoking
the factory (steps 5 to 7) is caught: the cycle ends with error set to the
thrown value, the renderer untouched and no exception escaping.  Filename
resolution itself (step 4) runs outside the try block, so its exceptions
escape. -/
theorem doneHandler_catches_load_errors {J R : Type} (env : Env J R)
    (ms : List (Stats J)) (st : DispatcherState R) (serverStats : Stats J)
    (fn : String) (e : JsValue)
    (hs : findStats ms "server" = some serverStats)
    (he : serverStats.errors = [])
    (hf : getChunkFilename serverStats.assetsByChunkName env.outputPath
        env.chunkName = Except.ok fn)
    (hl : loadServerRenderer env (findStats ms "client") fn = Except.error e) :
    doneHandler env ms st
      = ({ serverRenderer := st.serverRenderer, error := e }, none) := by
  simp only [doneHandler, hs, he, hf, hl]

/-- Witness for the amended C1: the demo server manifest pointing at a file
missing from the output filesystem; the read throws ENOENT, which is caught
and recorded. -/
theorem doneHandler_catches_load_errors_witness :
    doneHandler demoEnv
        [demoClientStats,
         { demoServerStats with assetsByChunkName := [("main", Asset.single "other.js")] }]
        initialState
      = ({ serverRenderer := none, error := enoentError }, none) := by
  exact doneHandler_catches_load_errors demoEnv _ initialState
    { demoServerStats with assetsByChunkName := [("main", Asset.single "other.js")] }
    "/dist/other.js" enoentError rfl rfl rfl rfl

/-- C2 counterexample: when the first server compilation error is the falsy
value the empty string, the request handler does not call next with it; it
invokes the stale renderer instead. -/
theorem falsy_error_next_skipped_counterexample :
    ((doneHandler demoEnv [demoClientStats, falsyErrorServerStats]
        (doneHandler demoEnv [demoClientStats, demoServerStats] initialState).1).1.error
      = JsValue.str "")
    ∧ requestHandler (doneHandler demoEnv [demoClientStats, falsyErrorServerStats]
        (doneHandler demoEnv [demoClientStats, demoServerStats] initialState).1).1
      ≠ RequestOutcome.nextError (JsValue.str "")
    ∧ requestHandler (doneHandler demoEnv [demoClientStats, falsyErrorServerStats]
        (doneHandler demoEnv [demoClientStats, demoServerStats] initialState).1).1
      = RequestOutcome.render (Json.stringify demoClientStats.toJson) := by decide

/-- C2 amended: when the server build result has one or more errors, the
handler sets error to the first one and returns with the renderer untouched;
provided that first error is truthy, every subsequent request (the state is
unchanged until another build completes) calls next with it and invokes no
renderer. -/
theorem doneHandler_compile_error_propagates {J R : Type} (env : Env J R)
    (ms : List (Stats J)) (st : DispatcherState R) (serverStats : Stats J)
    (e : JsValue) (rest : List JsValue)
    (hs : findStats ms "server" = some serverStats)
    (he : serverStats.errors = e :: rest)
    (ht : e.truthy = true) :
    doneHandler env ms st = ({ st with error := e }, none)
    ∧ requestHandler (doneHandler env ms st).1 = RequestOutcome.nextError e := by
  have h1 : doneHandler env ms st = ({ st with error := e }, none) := by
    simp only [doneHandler, hs, he]
  refine ⟨h1, ?_⟩
  rw [h1]
  simp [requestHandler, ht]

/-- Witness for the amended C2: the boom scenario; the cycle records the
error and requests get next of it. -/
theorem doneHandler_compile_error_propagates_witness :
    doneHandler demoEnv [demoClientStats, erroredServerStats] initialState
      = ({ initialState with error := JsValue.str "boom" }, none)
    ∧ requestHandler (doneHandler demoEnv [demoClientStats, erroredServerStats]
        initialState).1
      = RequestOutcome.nextError (JsValue.str "boom") := by
  exact doneHandler_compile_error_propagates demoEnv
    [demoClientStats, erroredServerStats] initialState erroredServerStats
    (JsValue.str "boom") [] rfl rfl rfl

/-- C10: because the cleared state of the error variable is the boolean false
and the request handler tests it for truthiness, a falsy first compilation
error (empty string, 0, null, ...) is recorded but ignored: a request after
that failed build invokes the stale renderer instead of calling next. -/
theorem falsy_error_invokes_renderer {J R : Type} (env : Env J R)
    (ms : List (Stats J)) (st : DispatcherState R) (serverStats : Stats J)
    (e : JsValue) (rest : List JsValue) (r : R)
    (hs : findStats ms "server" = some serverStats)
    (he : serverStats.errors = e :: rest)
    (ht : e.truthy = false)
    (hr : st.serverRenderer = some r) :
    (doneHandler env ms st).1.error = e
    ∧ requestHandler (doneHandler env ms st).1 = RequestOutcome.render r := by
  have h1 : doneHandler env ms st = ({ st with error := e }, none) := by
    simp only [doneHandler, hs, he]
  rw [h1]
  exact ⟨rfl, by simp [requestHandler, ht, hr]⟩

/-- Witness for C10: after a successful cycle installed the demo renderer,
a build failing with first error the empty string leaves requests rendering
through the stale renderer. -/
theorem falsy_error_invokes_renderer_witness :
    ((doneHandler demoEnv [demoClientStats, falsyErrorServerStats]
        (doneHandler demoEnv [demoClientStats, demoServerStats] initialState).1).1.error
      = JsValue.str "")
    ∧ requestHandler (doneHandler demoEnv [demoClientStats, falsyErrorServerStats]
        (doneHandler demoEnv [demoClientStats, demoServerStats] initialState).1).1
      = RequestOutcome.render (Json.stringify demoClientStats.toJson) := by
  exact falsy_error_invokes_renderer demoEnv
    [demoClientStats, falsyErrorServerStats]
    (doneHandler demoEnv [demoClientStats, demoServerStats] initialState).1
    falsyErrorServerStats (JsValue.str "") [] (Json.stringify demoClientStats.toJson)
    rfl rfl rfl rfl

/-- C3 counterexample: two completed cycles that end with the error variable
at its cleared value false while the renderer still reflects an older build
the latest build failed to replace: a cycle whose filename resolution throws
(the exception escapes after error was cleared), and a cycle whose first
compile error is the literal false. -/
theorem invariant_stale_renderer_counterexample :
    (demoOutcome3.2 = some pathJoinTypeError
      ∧ demoOutcome3.1.error = JsValue.bool false
      ∧ demoOutcome3.1.serverRenderer = demoState1.serverRenderer
      ∧ demoState1.serverRenderer = some (Json.stringify demoClientStats.toJson))
    ∧ (demoLiteralFalseOutcome.2 = none
      ∧ demoLiteralFalseOutcome.1.error = JsValue.bool false
      ∧ demoLiteralFalseOutcome.1.serverRenderer = demoState1.serverRenderer) := by
  decide

/-- C3 amended: after every build-completion event from which no exception
escapes, the end state reflects the latest server build outcome through
exactly one branch: first compile error recorded with the renderer
untouched; or a caught load error recorded with the renderer untouched; or
the error cleared with the renderer newly produced by this cycle.  (When the
filename-resolution step throws, the cycle instead ends with the error
cleared and the renderer stale.) -/
theorem doneHandler_reflects_latest_outcome {J R : Type} (env : Env J R)
    (ms : List (Stats J)) (st : DispatcherState R)
    (hesc : (doneHandler env ms st).2 = none) :
    ∃ serverStats, findStats ms "server" = some serverStats
      ∧ ((∃ e rest, serverStats.errors = e :: rest
            ∧ (doneHandler env ms st).1 = { st with error := e })
        ∨ (serverStats.errors = []
            ∧ ∃ fn, getChunkFilename serverStats.assetsByChunkName env.outputPath
                env.chunkName = Except.ok fn
            ∧ ((∃ r, loadServerRenderer env (findStats ms "client") fn = Except.ok r
                  ∧ (doneHandler env ms st).1
                    = { serverRenderer := some r, error := JsValue.bool false })
              ∨ (∃ e, loadServerRenderer env (findStats ms "client") fn = Except.error e
                  ∧ (doneHandler env ms st).1
                    = { serverRenderer := st.serverRenderer, error := e })))) := by
  cases hS : findStats ms "server" with
  | none =>
    exfalso
    simp only [doneHandler, hS] at hesc
    exact Option.noConfusion hesc
  | some serverStats =>
    refine ⟨serverStats, rfl, ?_⟩
    cases hE : serverStats.errors with
    | cons e rest =>
      left
      exact ⟨e, rest, rfl, by simp only [doneHandler, hS, hE]⟩
    | nil =>
      right
      refine ⟨rfl, ?_⟩
      cases hF : getChunkFilename serverStats.assetsByChunkName env.outputPath
          env.chunkName with
      | error e =>
        exfalso
        simp only [doneHandler, hS, hE, hF] at hesc
        exact Option.noConfusion hesc
      | ok fn =>
        refine ⟨fn, rfl, ?_⟩
        cases hL : loadServerRenderer env (findStats ms "client") fn with
        | ok r =>
          left
          exact ⟨r, rfl, by simp only [doneHandler, hS, hE, hF, hL]⟩
        | error e =>
          right
          exact ⟨e, rfl, by simp only [doneHandler, hS, hE, hF, hL]⟩

/-- Witness for the amended C3 at the boom scenario, which escapes nothing. -/
theorem doneHandler_reflects_latest_outcome_witness :
    ∃ serverStats,
      findStats [demoClientStats, erroredServerStats] "server" = some serverStats
      ∧ ((∃ e rest, serverStats.errors = e :: rest
            ∧ (doneHandler demoEnv [demoClientStats, erroredServerStats] initialState).1
              = { initialState with error := e })
        ∨ (serverStats.errors = []
            ∧ ∃ fn, getChunkFilename serverStats.assetsByChunkName demoEnv.outputPath
                demoEnv.chunkName = Except.ok fn
            ∧ ((∃ r, loadServerRenderer demoEnv
                    (findStats [demoClientStats, erroredServerStats] "client") fn
                    = Except.ok r
                  ∧ (doneHandler demoEnv [demoClientStats, erroredServerStats] initialState).1
                    = { serverRenderer := some r, error := JsValue.bool false })
              ∨ (∃ e, loadServerRenderer demoEnv
                    (findStats [demoClientStats, erroredServerStats] "client") fn
                    = Except.error e
                  ∧ (doneHandler demoEnv [demoClientStats, erroredServerStats] initialState).1
                    = { serverRenderer := initialState.serverRenderer, error := e })))) :=
  doneHandler_reflects_latest_outcome demoEnv [demoClientStats, erroredServerStats]
    initialState rfl

/-- C4 counterexample: a failing cycle does not leave the state pair
untouched (the error field changes), and a cycle whose filename resolution
throws ends in a partially updated pair: the error was cleared on the way to
a success that never happened, the renderer is stale, and the resulting
state is neither the prior complete state nor one a completed successful
cycle produced. -/
theorem state_pair_partial_update_counterexample :
    (demoState2 ≠ demoState1
      ∧ demoState2.serverRenderer = demoState1.serverRenderer)
    ∧ (demoOutcome3.2 = some pathJoinTypeError
      ∧ demoOutcome3.1 ≠ demoState2
      ∧ demoOutcome3.1.serverRenderer = demoState2.serverRenderer
      ∧ demoOutcome3.1.error = JsValue.bool false) := by
  decide

/-- C4 amended: the renderer field is replaced only by a cycle that ran to
completion fully successfully, and such a cycle sets the pair together:
renderer to the newly produced value and error to the cleared value false.
In every other completed cycle the renderer is left untouched (while the
error field does change to record the failure). -/
theorem renderer_replaced_only_by_successful_cycle {J R : Type} (env : Env J R)
    (ms : List (Stats J)) (st : DispatcherState R)
    (h : (doneHandler env ms st).1.serverRenderer ≠ st.serverRenderer) :
    (doneHandler env ms st).2 = none
    ∧ ∃ serverStats fn r,
        findStats ms "server" = some serverStats
        ∧ serverStats.errors = []
        ∧ getChunkFilename serverStats.assetsByChunkName env.outputPath env.chunkName
            = Except.ok fn
        ∧ loadServerRenderer env (findStats ms "client") fn = Except.ok r
        ∧ (doneHandler env ms st).1
            = { serverRenderer := some r, error := JsValue.bool false } := by
  cases hS : findStats ms "server" with
  | none =>
    exact absurd (by simp only [doneHandler, hS]) h
  | some serverStats =>
    cases hE : serverStats.errors with
    | cons e rest =>
      exact absurd (by simp only [doneHandler, hS, hE]) h
    | nil =>
      cases hF : getChunkFilename serverStats.assetsByChunkName env.outputPath
          env.chunkName with
      | error e =>
        exact absurd (by simp only [doneHandler, hS, hE, hF]) h
      | ok fn =>
        cases hL : loadServerRenderer env (findStats ms "client") fn with
        | error e =>
          exact absurd (by simp only [doneHandler, hS, hE, hF, hL]) h
        | ok r =>
          refine ⟨by simp only [doneHandler, hS, hE, hF, hL], serverStats, fn, r,
            rfl, hE, hF, hL, by simp only [doneHandler, hS, hE, hF, hL]⟩

/-- Witness for the amended C4 at the successful demo cycle (whose renderer
does change). -/
theorem renderer_replaced_only_by_successful_cycle_witness :
    (doneHandler demoEnv [demoClientStats, demoServerStats]
        (initialState : DispatcherState String)).2 = none
    ∧ ∃ serverStats fn r,
        findStats [demoClientStats, demoServerStats] "server" = some serverStats
        ∧ serverStats.errors = []
        ∧ getChunkFilename serverStats.assetsByChunkName demoEnv.outputPath
            demoEnv.chunkName = Except.ok fn
        ∧ loadServerRenderer demoEnv
            (findStats [demoClientStats, demoServerStats] "client") fn = Except.ok r
        ∧ (doneHandler demoEnv [demoClientStats, demoServerStats] initialState).1
            = { serverRenderer := some r, error := JsValue.bool false } :=
  renderer_replaced_only_by_successful_cycle demoEnv
    [demoClientStats, demoServerStats] initialState (by decide)

/-- C5: on a successful cycle the unwrapped export of the loaded module is
invoked as a factory with exactly the client build result's serialized
manifest (the toJson value of the client stats), and the value it returns
becomes the renderer that serves subsequent requests. -/
theorem factory_receives_client_json {J R : Type} (env : Env J R)
    (ms : List (Stats J)) (st : DispatcherState R)
    (serverStats clientStats : Stats J) (fn data : String)
    (m : JsModule J R) (r : R)
    (hs : findStats ms "server" = some serverStats)
    (hc : findStats ms "client" = some clientStats)
    (he : serverStats.errors = [])
    (hf : getChunkFilename serverStats.assetsByChunkName env.outputPath
        env.chunkName = Except.ok fn)
    (hd : env.readFileSync fn = Except.ok data)
    (hm : env.requireFromString data fn = Except.ok m)
    (hr : interopRequireDefault m clientStats.toJson = Except.ok r) :
    (doneHandler env ms st).1.serverRenderer = some r
    ∧ requestHandler (doneHandler env ms st).1 = RequestOutcome.render r := by
  have hl : loadServerRenderer env (findStats ms "client") fn = Except.ok r := by
    simp only [loadServerRenderer, hc, hd, hm]
    exact hr
  have h1 : doneHandler env ms st
      = ({ serverRenderer := some r, error := JsValue.bool false }, none) := by
    simp only [doneHandler, hs, he, hf, hl]
  rw [h1]
  exact ⟨rfl, rfl⟩

/-- Witness for C5: the end-to-end scenario: client manifest main to main.js,
server factory echoing its argument as JSON; after the cycle a request is
served the body rendering the client manifest. -/
theorem factory_receives_client_json_witness :
    (doneHandler demoEnv [demoClientStats, demoServerStats] initialState).1.serverRenderer
      = some "\x7b\"main\":\"main.js\"\x7d"
    ∧ requestHandler (doneHandler demoEnv [demoClientStats, demoServerStats] initialState).1
      = RequestOutcome.render "\x7b\"main\":\"main.js\"\x7d" :=
  factory_receives_client_json demoEnv [demoClientStats, demoServerStats]
    initialState demoServerStats demoClientStats "/dist/server.js"
    "module.exports = factory" demoModule "\x7b\"main\":\"main.js\"\x7d"
    rfl rfl rfl rfl rfl rfl rfl

/-- C8: whatever the first cycle did, after a second cycle that completes
successfully every request is handled by the renderer produced by the second
cycle's factory invocation. -/
theorem second_cycle_renderer_serves {J R : Type} (env1 env2 : Env J R)
    (ms1 ms2 : List (Stats J)) (st : DispatcherState R)
    (serverStats2 : Stats J) (fn2 : String) (r2 : R)
    (hs2 : findStats ms2 "server" = some serverStats2)
    (he2 : serverStats2.errors = [])
    (hf2 : getChunkFilename serverStats2.assetsByChunkName env2.outputPath
        env2.chunkName = Except.ok fn2)
    (hl2 : loadServerRenderer env2 (findStats ms2 "client") fn2 = Except.ok r2) :
    requestHandler (doneHandler env2 ms2 (doneHandler env1 ms1 st).1).1
      = RequestOutcome.render r2 := by
  have h2 : doneHandler env2 ms2 (doneHandler env1 ms1 st).1
      = ({ serverRenderer := some r2, error := JsValue.bool false }, none) := by
    simp only [doneHandler, hs2, he2, hf2, hl2]
  rw [h2]
  rfl

/-- Witness for C8: two consecutive successful cycles whose factories return
the distinguishable renderers 1 and 2; requests after the second cycle are
served by renderer 2, not renderer 1. -/
theorem second_cycle_renderer_serves_witness :
    requestHandler (doneHandler (constEnv 2) [demoClientStats, demoServerStats]
        (doneHandler (constEnv 1) [demoClientStats, demoServerStats]
          initialState).1).1
      = RequestOutcome.render 2
    ∧ RequestOutcome.render (2 : Nat) ≠ RequestOutcome.render 1 :=
  ⟨second_cycle_renderer_serves (constEnv 1) (constEnv 2)
      [demoClientStats, demoServerStats] [demoClientStats, demoServerStats]
      initialState demoServerStats "/dist/server.js" 2 rfl rfl rfl rfl,
    by decide⟩

/-- Witness for C9: even for a genuine MultiCompiler instance the guard is
false (the negation is a primitive boolean). -/
theorem instanceOf_guard_unreachable_witness :
    jsInstanceOf (jsNot (JsValue.object "MultiCompiler" "")) "MultiCompiler" = false :=
  (instanceOf_guard_unreachable (JsValue.object "MultiCompiler" "") [] none).1
